import Mathlib

/-!
Shallow embedding of the coderfile backend (an Express + Drizzle REST service).

The data-model structures below are translated from the pgTable declarations of
the schema module (src/unnamed/part_000); the handler functions are translated
from the route handlers in src/server/routes.ts.  Conventions:

* uuid / text columns become String (Option String when the column is nullable);
* integer columns become Int (Option Int when nullable);
* timestamp columns become Nat (an abstract clock tick; Option Nat when nullable);
* jsonb columns holding structured stub data become structured Lean values,
  jsonb aggregate blobs on the stats row become raw String payloads;
* the database is a List of rows; a handler takes the relevant table(s),
  the request data, and explicit parameters for the sources of nondeterminism
  used by the original code (generated ids, the clock, the random stream fed
  to the token generator), and returns the HTTP status, the JSON body and the
  updated table(s).
-/

namespace Coderfile

/-- A JSON value, as delivered by the Express JSON body parser.  Objects and
arrays are not needed by the claims under study and are omitted. -/
inductive JVal where
  | jstr (s : String)
  | jnum (n : Int)
  | jbool (b : Bool)
  | jnull
  deriving DecidableEq, Repr

/-- Row of the code_snippets table (schema module). -/
structure CodeSnippet where
  id : String
  title : String
  description : Option String
  content : Option String
  language : Option String
  ownerId : Option String
  isProtected : Option Bool
  isPublic : Option Bool
  isFeatured : Option Bool
  isTemporary : Option Bool
  expiresAt : Option Nat
  shareToken : String
  createdAt : Nat
  updatedAt : Nat
  deriving DecidableEq, Repr

/-- Row of the snippet_messages table (schema module). -/
structure SnippetMessage where
  id : String
  snippetId : String
  userId : Option String
  username : String
  messageType : String
  content : Option String
  fileUrl : Option String
  fileName : Option String
  fileSize : Option Int
  fileType : Option String
  createdAt : Option Nat
  updatedAt : Option Nat
  deriving DecidableEq, Repr

/-- One element of the test_cases jsonb array of a coding challenge. -/
structure TestCase where
  input : String
  expected : String
  description : String
  deriving DecidableEq, Repr

/-- Row of the coding_challenges table (schema module). -/
structure CodingChallenge where
  id : String
  title : String
  description : String
  difficulty : String
  language : String
  testCases : List TestCase
  hints : List String
  constraints : Option String
  createdAt : Nat
  createdBy : Option String
  deriving DecidableEq, Repr

/-- One element of the test_results jsonb array of a submission. -/
structure TestResult where
  passed : Bool
  input : String
  expected : String
  actual : String
  deriving DecidableEq, Repr

/-- Row of the challenge_submissions table (schema module). -/
structure ChallengeSubmission where
  id : String
  challengeId : String
  userId : Option String
  sessionId : Option String
  code : String
  language : String
  score : Int
  rank : Option String
  testResults : List TestResult
  feedback : Option String
  strengths : List String
  improvements : List String
  executionTimeMs : Option Int
  hintsUsed : Option Int
  submittedAt : Nat
  deriving DecidableEq, Repr

/-- Row of the user_practice_stats table (schema module).  The jsonb aggregate
columns (languages_practiced, difficulty_breakdown, rank_distribution) are kept
as raw serialized payloads since no handler ever reads them. -/
structure UserPracticeStats where
  userId : String
  totalChallenges : Option Int
  totalSubmissions : Option Int
  averageScore : Option String
  bestRank : Option String
  languagesPracticed : String
  difficultyBreakdown : String
  rankDistribution : String
  totalPoints : Int
  currentStreak : Int
  longestStreak : Int
  lastSubmissionDate : Option Nat
  updatedAt : Nat
  deriving DecidableEq, Repr

/-! ### The share-token generator

Model of the external nanoid library used by the snippet-creation and
call-room handlers: nanoid(n) draws n characters uniformly from its fixed
64-character URL-safe alphabet.  The random stream is passed explicitly. -/

/-- The 64-character URL-safe alphabet of the nanoid library. -/
def urlAlphabet : List Char :=
  "useandom-26T198340PX75pxJACKVERYMINDBUSHWOLF_GQZbfghjklqvwyzrict".data

/-- nanoid(size) with the random source made explicit: the i-th character is
picked from the 64-character alphabet by the i-th random draw. -/
def nanoid (size : Nat) (rand : Nat → Nat) : String :=
  String.mk ((List.range size).map (fun i => urlAlphabet.getD (rand i % 64) 'u'))

/-! ### POST /api/snippets (creation payload validation and insert)

The creation payload is validated by insertCodeSnippetSchema, which is
createInsertSchema(codeSnippets).omit(id, createdAt, updatedAt, shareToken)
from the schema module: the omitted keys are stripped without being read, every
remaining column is optional (each is nullable or carries a default), present
keys must be of the column's type, nullable columns also accept null, the
ownerId uuid column demands uuid format, and the expiresAt timestamp column is
validated as a Date object, which no JSON body value can satisfy except null. -/

/-- Raw creation request body: each schema key either absent or a JSON value.
The last four fields are the server-generated columns a caller might try to
smuggle in; the validator strips them without reading them. -/
structure SnippetPayload where
  title : Option JVal
  description : Option JVal
  content : Option JVal
  language : Option JVal
  ownerId : Option JVal
  isProtected : Option JVal
  isPublic : Option JVal
  isFeatured : Option JVal
  isTemporary : Option JVal
  expiresAt : Option JVal
  id : Option JVal
  shareToken : Option JVal
  createdAt : Option JVal
  updatedAt : Option JVal
  deriving DecidableEq, Repr

/-- Validated creation payload: outer Option is key presence, the inner Option
of a nullable column distinguishes an explicit null from a string/bool. -/
structure ParsedSnippet where
  title : Option String
  description : Option (Option String)
  content : Option (Option String)
  language : Option (Option String)
  ownerId : Option (Option String)
  isProtected : Option (Option Bool)
  isPublic : Option (Option Bool)
  isFeatured : Option (Option Bool)
  isTemporary : Option (Option Bool)
  expiresAt : Option (Option Nat)
  deriving DecidableEq, Repr

/-- Validator for a non-nullable text column with a default (title). -/
def parseOptStr : Option JVal → Except String (Option String)
  | none => .ok none
  | some (.jstr s) => .ok (some s)
  | some _ => .error "Expected string"

/-- Validator for a nullable text column. -/
def parseNullableStr : Option JVal → Except String (Option (Option String))
  | none => .ok none
  | some .jnull => .ok (some none)
  | some (.jstr s) => .ok (some (some s))
  | some _ => .error "Expected string or null"

/-- Validator for a nullable boolean column. -/
def parseNullableBool : Option JVal → Except String (Option (Option Bool))
  | none => .ok none
  | some .jnull => .ok (some none)
  | some (.jbool b) => .ok (some (some b))
  | some _ => .error "Expected boolean or null"

/-- Hexadecimal-digit test used by the uuid format check. -/
def isHexDigit (c : Char) : Bool :=
  c.isDigit || ('a' ≤ c && c ≤ 'f') || ('A' ≤ c && c ≤ 'F')

/-- The uuid format check applied by the zod string().uuid() validator:
36 characters, dashes at positions 8, 13, 18 and 23, hex digits elsewhere. -/
def isUuid (s : String) : Bool :=
  s.data.length = 36 &&
    (List.range 36).all fun i =>
      let c := s.data.getD i ' '
      if i = 8 || i = 13 || i = 18 || i = 23 then c = '-' else isHexDigit c

/-- Validator for the nullable ownerId uuid column. -/
def parseNullableUuid : Option JVal → Except String (Option (Option String))
  | none => .ok none
  | some .jnull => .ok (some none)
  | some (.jstr s) => if isUuid s then .ok (some (some s)) else .error "Invalid uuid"
  | some _ => .error "Expected uuid or null"

/-- Validator for the nullable expiresAt timestamp column: createInsertSchema
checks for a Date instance, which a JSON body can never contain, so only an
absent key or an explicit null passes. -/
def parseNullableDate : Option JVal → Except String (Option (Option Nat))
  | none => .ok none
  | some .jnull => .ok (some none)
  | some _ => .error "Expected date"

/-- insertCodeSnippetSchema.parse: per-column validation; the stripped columns
(id, shareToken, createdAt, updatedAt) are never inspected. -/
def parseInsertCodeSnippet (p : SnippetPayload) : Except String ParsedSnippet := do
  let title ← parseOptStr p.title
  let description ← parseNullableStr p.description
  let content ← parseNullableStr p.content
  let language ← parseNullableStr p.language
  let ownerId ← parseNullableUuid p.ownerId
  let isProtected ← parseNullableBool p.isProtected
  let isPublic ← parseNullableBool p.isPublic
  let isFeatured ← parseNullableBool p.isFeatured
  let isTemporary ← parseNullableBool p.isTemporary
  let expiresAt ← parseNullableDate p.expiresAt
  return { title, description, content, language, ownerId,
           isProtected, isPublic, isFeatured, isTemporary, expiresAt }

/-- The row stored by the snippet INSERT: validated fields where present,
schema defaults where absent, the server-generated id, token and timestamps. -/
def mkSnippetRow (d : ParsedSnippet) (genId : String) (rand : Nat → Nat)
    (now : Nat) : CodeSnippet :=
  { id := genId
    title := d.title.getD "Untitled"
    description := d.description.getD none
    content := d.content.getD (some "")
    language := d.language.getD (some "javascript")
    ownerId := d.ownerId.getD none
    isProtected := d.isProtected.getD (some false)
    isPublic := d.isPublic.getD (some false)
    isFeatured := d.isFeatured.getD (some false)
    isTemporary := d.isTemporary.getD (some false)
    expiresAt := d.expiresAt.getD none
    shareToken := nanoid 12 rand
    createdAt := now
    updatedAt := now }

/-- POST /api/snippets: validate, generate a share token with nanoid(12),
insert the row, and answer with the stored row; a validation failure answers
400 and stores nothing. -/
def createSnippet (snippets : List CodeSnippet) (p : SnippetPayload)
    (genId : String) (rand : Nat → Nat) (now : Nat) :
    Nat × Option CodeSnippet × List CodeSnippet :=
  match parseInsertCodeSnippet p with
  | .error _ => (400, none, snippets)
  | .ok d =>
    (200, some (mkSnippetRow d genId rand now),
     snippets ++ [mkSnippetRow d genId rand now])

/-! ### GET and PATCH /api/snippets/:shareToken -/

/-- GET /api/snippets/:shareToken: first row whose share token matches,
404 when none does. -/
def getSnippet (snippets : List CodeSnippet) (token : String) :
    Nat × Option CodeSnippet :=
  match snippets.find? (fun s => s.shareToken == token) with
  | some s => (200, some s)
  | none => (404, none)

/-- PATCH request body: the handler destructures content, title, description
and language; an absent key is undefined and is dropped from the update by the
query builder. -/
structure PatchBody where
  content : Option String
  title : Option String
  description : Option String
  language : Option String
  deriving DecidableEq, Repr

/-- The SET clause of the PATCH update applied to one row: each present body
field overwrites its column, updatedAt is refreshed, nothing else is touched. -/
def applyPatch (s : CodeSnippet) (b : PatchBody) (now : Nat) : CodeSnippet :=
  { s with
    content := match b.content with | some v => some v | none => s.content
    title := match b.title with | some v => v | none => s.title
    description := match b.description with | some v => some v | none => s.description
    language := match b.language with | some v => some v | none => s.language
    updatedAt := now }

/-- PATCH /api/snippets/:shareToken: update every row whose share token
matches (the token is unique, so at most one), answer with the first updated
row, or 404 leaving the table untouched when no row matches. -/
def patchSnippet (snippets : List CodeSnippet) (token : String) (b : PatchBody)
    (now : Nat) : Nat × Option CodeSnippet × List CodeSnippet :=
  match ((snippets.filter (fun s => s.shareToken == token)).map
      (fun s => applyPatch s b now)).head? with
  | some s =>
    (200, some s,
     snippets.map (fun s => if s.shareToken == token then applyPatch s b now else s))
  | none => (404, none, snippets)

/-! ### GET /api/snippets/:snippetId/messages -/

/-- Sort key of the message list: created_at, with a missing timestamp at the
top, matching descending order with nulls first. -/
def msgKey (m : SnippetMessage) : WithTop Nat :=
  match m.createdAt with
  | none => ⊤
  | some t => (t : WithTop Nat)

/-- The ORDER BY desc(created_at) comparison on messages. -/
def msgDesc (a b : SnippetMessage) : Prop := msgKey b ≤ msgKey a

instance : DecidableRel msgDesc := fun a b =>
  inferInstanceAs (Decidable (msgKey b ≤ msgKey a))

instance : IsTotal SnippetMessage msgDesc :=
  ⟨fun a b => le_total (msgKey b) (msgKey a)⟩

instance : IsTrans SnippetMessage msgDesc :=
  ⟨fun _ _ _ h h' => le_trans h' h⟩

/-- GET /api/snippets/:snippetId/messages: rows of the snippet ordered by
descending creation time, capped at 100. -/
def listSnippetMessages (msgs : List SnippetMessage) (sid : String) :
    List SnippetMessage :=
  (List.insertionSort msgDesc (msgs.filter (fun m => m.snippetId == sid))).take 100

/-! ### Coding-challenge handlers -/

/-- The title template's difficulty.charAt(0).toUpperCase() + difficulty.slice(1). -/
def jsCapitalize (s : String) : String :=
  match s.data with
  | [] => ""
  | c :: cs => String.mk (c.toUpper :: cs)

/-- POST /api/coding-challenges/generate: a missing difficulty makes the title
template throw (caught as 500, nothing stored); a missing language makes the
insert violate the NOT NULL language column (caught as 500, nothing stored);
otherwise the templated challenge row is stored and answered. -/
def generateChallenge (cs : List CodingChallenge) (difficulty language : Option String)
    (genId : String) (now : Nat) : Nat × List CodingChallenge :=
  match difficulty with
  | none => (500, cs)
  | some d =>
    match language with
    | none => (500, cs)
    | some l =>
      let ch : CodingChallenge :=
        { id := genId
          title := jsCapitalize d ++ " " ++ l ++ " Challenge"
          description := "Practice your " ++ l ++ " skills with this " ++ d ++ " level challenge."
          difficulty := d
          language := l
          testCases := [{ input := "test", expected := "test", description := "Basic test case" }]
          hints := ["Think about how to solve this step by step in " ++ l]
          constraints := some "Standard constraints apply"
          createdAt := now
          createdBy := none }
      (200, cs ++ [ch])

/-- The ORDER BY desc(created_at) comparison on challenges. -/
def chDesc (a b : CodingChallenge) : Prop := b.createdAt ≤ a.createdAt

instance : DecidableRel chDesc := fun a b =>
  inferInstanceAs (Decidable (b.createdAt ≤ a.createdAt))

instance : IsTotal CodingChallenge chDesc :=
  ⟨fun a b => Nat.le_total b.createdAt a.createdAt⟩

instance : IsTrans CodingChallenge chDesc :=
  ⟨fun _ _ _ h h' => le_trans h' h⟩

/-- GET /api/coding-challenges: a condition is pushed for each truthy query
parameter (a missing parameter and the empty string are both falsy in the
source), the conditions are AND-combined, rows come newest first, capped
at 50. -/
def listChallenges (cs : List CodingChallenge) (difficulty language : Option String) :
    List CodingChallenge :=
  let conds : List (CodingChallenge → Bool) :=
    (match difficulty with
     | some d => if d == "" then [] else [fun c => c.difficulty == d]
     | none => [])
    ++
    (match language with
     | some l => if l == "" then [] else [fun c => c.language == l]
     | none => [])
  (List.insertionSort chDesc (cs.filter (fun c => conds.all (fun f => f c)))).take 50

/-! ### POST /api/coding-challenges/:challengeId/submit and the stats upsert -/

/-- The submission payload after insertChallengeSubmissionSchema validation:
challengeId is injected from the path, code and language are required,
the rest is optional (score and the grading columns are overwritten by the
handler and therefore not modelled on the payload). -/
structure SubmitPayload where
  userId : Option String
  sessionId : Option String
  code : String
  language : String
  hintsUsed : Option Int
  executionTimeMs : Option Int
  deriving DecidableEq, Repr

/-- The VALUES row of the stats insert branch: totals seeded to one submission,
average score 100.00, the submission's score as points; every other column
takes its schema default. -/
def seedStatsRow (u : String) (score : Int) (now : Nat) : UserPracticeStats :=
  { userId := u
    totalChallenges := some 1
    totalSubmissions := some 1
    averageScore := some "100.00"
    bestRank := none
    languagesPracticed := "\x7b\x7d"
    difficultyBreakdown := "\x7b\x7d"
    rankDistribution := "\x7b\x7d"
    totalPoints := score
    currentStreak := 0
    longestStreak := 0
    lastSubmissionDate := none
    updatedAt := now }

/-- The SET clause of the onConflictDoUpdate branch: totalSubmissions + 1,
totalPoints + score, refreshed updatedAt, nothing else. -/
def bumpStatsRow (s : UserPracticeStats) (score : Int) (now : Nat) : UserPracticeStats :=
  { s with
    totalSubmissions := s.totalSubmissions.map (fun n => n + 1)
    totalPoints := s.totalPoints + score
    updatedAt := now }

/-- INSERT ... ON CONFLICT (user_id) DO UPDATE on the stats table. -/
def upsertStats (stats : List UserPracticeStats) (u : String) (score : Int)
    (now : Nat) : List UserPracticeStats :=
  if stats.any (fun s => s.userId == u) then
    stats.map (fun s => if s.userId == u then bumpStatsRow s score now else s)
  else
    stats ++ [seedStatsRow u score now]

/-- POST /api/coding-challenges/:challengeId/submit: store the submission with
the static grading stub (score 100, rank A+, one passed test, fixed feedback),
then, when the payload carries a truthy userId, upsert that user's stats row. -/
def submitChallenge (subs : List ChallengeSubmission) (stats : List UserPracticeStats)
    (challengeId : String) (p : SubmitPayload) (genId : String) (now : Nat) :
    Nat × List ChallengeSubmission × List UserPracticeStats :=
  let score : Int := 100
  let sub : ChallengeSubmission :=
    { id := genId
      challengeId := challengeId
      userId := p.userId
      sessionId := p.sessionId
      code := p.code
      language := p.language
      score := score
      rank := some "A+"
      testResults := [{ passed := true, input := "test", expected := "test", actual := "test" }]
      feedback := some "Great work!"
      strengths := ["Clean code", "Efficient solution"]
      improvements := []
      executionTimeMs := p.executionTimeMs
      hintsUsed := some (p.hintsUsed.getD 0)
      submittedAt := now }
  let stats' :=
    match p.userId with
    | some u => if u == "" then stats else upsertStats stats u score now
    | none => stats
  (200, subs ++ [sub], stats')

/-! ### GET /api/users/:userId/stats -/

/-- The zero-valued object literal the stats handler answers with when no row
exists; its fields mirror the schema columns of the same names. -/
structure ZeroStats where
  userId : String
  totalChallenges : Int
  totalSubmissions : Int
  averageScore : String
  totalPoints : Int
  currentStreak : Int
  longestStreak : Int
  deriving DecidableEq, Repr

/-- Body of the stats response: the found row, or the zero-valued literal. -/
inductive StatsGetBody where
  | row (s : UserPracticeStats)
  | zero (z : ZeroStats)
  deriving DecidableEq, Repr

/-- Single-row lookup on the stats table, as done by the handlers. -/
def findStats (stats : List UserPracticeStats) (u : String) :
    Option UserPracticeStats :=
  stats.find? (fun s => s.userId == u)

/-- GET /api/users/:userId/stats: the stored row when one exists, otherwise the
zero-valued literal echoing the requested user id; always 200, and the lookup
never writes. -/
def getUserStats (stats : List UserPracticeStats) (uid : String) :
    Nat × StatsGetBody × List UserPracticeStats :=
  match stats.find? (fun s => s.userId == uid) with
  | some s => (200, .row s, stats)
  | none =>
    (200,
     .zero { userId := uid, totalChallenges := 0, totalSubmissions := 0,
             averageScore := "0.00", totalPoints := 0, currentStreak := 0,
             longestStreak := 0 },
     stats)

/-! ### POST /api/code/format -/

/-- Body of the format request: code and language as delivered by the JSON
body parser (either key may be absent). -/
structure FormatBody where
  code : Option JVal
  language : Option JVal
  deriving DecidableEq, Repr

/-- Response body of the format stub. -/
structure FormatResponse where
  formattedCode : Option JVal
  deriving DecidableEq, Repr

/-- POST /api/code/format: echoes the code field back unchanged. -/
def formatCodeHandler (b : FormatBody) : Nat × FormatResponse :=
  (200, { formattedCode := b.code })

/-! ### Sample rows and payloads used by the witness theorems -/

/-- A concrete stored snippet. -/
def sampleSnippet : CodeSnippet :=
  { id := "i1", title := "T", description := none, content := some "c",
    language := some "js", ownerId := none, isProtected := some false,
    isPublic := some false, isFeatured := some false, isTemporary := some false,
    expiresAt := none, shareToken := "tok", createdAt := 1, updatedAt := 1 }

/-- A concrete well-formed creation body that also tries to smuggle in an id,
a share token and a creation timestamp. -/
def sampleCreatePayload : SnippetPayload :=
  { title := some (.jstr "Hello"), description := none, content := some (.jstr "pr"),
    language := some (.jstr "python"), ownerId := none, isProtected := none,
    isPublic := none, isFeatured := none, isTemporary := none, expiresAt := none,
    id := some (.jstr "evil-id"), shareToken := some (.jstr "evil-token"),
    createdAt := some (.jnum 1), updatedAt := none }

/-- What the sample creation body validates to. -/
def sampleParsedSnippet : ParsedSnippet :=
  { title := some "Hello", description := none, content := some (some "pr"),
    language := some (some "python"), ownerId := none, isProtected := none,
    isPublic := none, isFeatured := none, isTemporary := none, expiresAt := none }

/-- A creation body whose title is a number, failing validation. -/
def badCreatePayload : SnippetPayload :=
  { sampleCreatePayload with title := some (.jnum 5) }

/-- A concrete PATCH body updating only the content. -/
def samplePatchBody : PatchBody :=
  { content := some "new", title := none, description := none, language := none }

/-- A concrete submission payload carrying a known user. -/
def samplePayload : SubmitPayload :=
  { userId := some "u1", sessionId := none, code := "x", language := "js",
    hintsUsed := none, executionTimeMs := none }

/-- A concrete pre-existing stats row for the same user. -/
def sampleStatsRow : UserPracticeStats :=
  { userId := "u1", totalChallenges := some 3, totalSubmissions := some 7,
    averageScore := some "88.00", bestRank := some "A",
    languagesPracticed := "\x7b\x7d", difficultyBreakdown := "\x7b\x7d",
    rankDistribution := "\x7b\x7d", totalPoints := 700, currentStreak := 2,
    longestStreak := 5, lastSubmissionDate := some 9, updatedAt := 1 }

/-! ### Helper lemmas about the stats upsert -/

theorem bumpStatsRow_userId (s : UserPracticeStats) (score : Int) (now : Nat) :
    (bumpStatsRow s score now).userId = s.userId := rfl

theorem findStats_map_pres (f : UserPracticeStats → UserPracticeStats)
    (hf : ∀ s, (f s).userId = s.userId) (stats : List UserPracticeStats) (u : String) :
    findStats (stats.map f) u = (findStats stats u).map f := by
  induction stats with
  | nil => rfl
  | cons a l ih =>
    unfold findStats at *
    rw [List.map_cons]
    by_cases h : a.userId = u
    · rw [List.find?_cons_of_pos _ (by simp [hf, h]),
        List.find?_cons_of_pos _ (by simp [h])]
      rfl
    · rw [List.find?_cons_of_neg _ (by simp [hf, h]),
        List.find?_cons_of_neg _ (by simp [h])]
      exact ih

/-- The conflict branch: with an existing row for the user, the upsert bumps
exactly that row. -/
theorem upsert_existing (stats : List UserPracticeStats) (u : String) (score : Int)
    (now : Nat) (s : UserPracticeStats) (hs : findStats stats u = some s) :
    findStats (upsertStats stats u score now) u = some (bumpStatsRow s score now) := by
  have hs' : List.find? (fun x => x.userId == u) stats = some s := hs
  have hp := List.find?_some hs'
  have hmem := List.mem_of_find?_eq_some hs'
  have hany : stats.any (fun x => x.userId == u) = true :=
    List.any_eq_true.mpr ⟨s, hmem, hp⟩
  have hsu : s.userId = u := by simpa using hp
  unfold upsertStats
  rw [if_pos hany]
  rw [findStats_map_pres _
    (fun x => by by_cases hx : x.userId = u <;> simp [hx, bumpStatsRow]), hs]
  simp [hsu]

/-- The insert branch: with no row for the user, the upsert appends the
seed row. -/
theorem upsert_fresh (stats : List UserPracticeStats) (u : String) (score : Int)
    (now : Nat) (h : findStats stats u = none) :
    upsertStats stats u score now = stats ++ [seedStatsRow u score now] := by
  have hany : stats.any (fun x => x.userId == u) = false := by
    rw [List.any_eq_false]
    intro x hx
    have := List.find?_eq_none.mp h x hx
    simpa using this
  unfold upsertStats
  rw [if_neg (by simp [hany])]

theorem findStats_append_right (stats : List UserPracticeStats) (r : UserPracticeStats)
    (u : String) (h : findStats stats u = none) :
    findStats (stats ++ [r]) u = findStats [r] u := by
  induction stats with
  | nil => rfl
  | cons a l ih =>
    have h' : List.find? (fun s => s.userId == u) (a :: l) = none := h
    have hfa : (a.userId == u) = false := by
      have := List.find?_eq_none.mp h' a (List.mem_cons_self a l)
      simpa using this
    have hl : findStats l u = none := by
      show List.find? (fun s => s.userId == u) l = none
      rw [List.find?_eq_none]
      intro x hx
      exact List.find?_eq_none.mp h' x (List.mem_cons_of_mem a hx)
    show List.find? (fun s => s.userId == u) ((a :: l) ++ [r]) =
      List.find? (fun s => s.userId == u) [r]
    rw [List.cons_append, List.find?_cons_of_neg _ (by simp [hfa])]
    exact ih hl

/-! ### Claim theorems -/

/-- With a truthy userId on the payload, the submission handler's stats table
is exactly the upsert of the incoming table. -/
theorem submit_stats_eq (subs : List ChallengeSubmission)
    (stats : List UserPracticeStats) (cid : String) (p : SubmitPayload)
    (gid : String) (now : Nat) (u : String)
    (hu : p.userId = some u) (hne : u ≠ "") :
    (submitChallenge subs stats cid p gid now).2.2 = upsertStats stats u 100 now := by
  unfold submitChallenge
  simp [hu, hne]

/-- C1: on a submission carrying a known userId, a missing stats row is
inserted seeded with totalChallenges 1, totalSubmissions 1, averageScore
100.00 and totalPoints 100; an existing row has totalSubmissions and
totalPoints incremented additively; and two submissions by the same known
user starting from no row leave totalSubmissions 2 and totalPoints 200. -/
theorem submit_upsert_additive (subs : List ChallengeSubmission)
    (stats : List UserPracticeStats) (cid : String) (p : SubmitPayload)
    (gid : String) (now : Nat) (u : String)
    (hu : p.userId = some u) (hne : u ≠ "") :
    (findStats stats u = none →
      ∃ r, (submitChallenge subs stats cid p gid now).2.2 = stats ++ [r]
        ∧ r.userId = u ∧ r.totalChallenges = some 1 ∧ r.totalSubmissions = some 1
        ∧ r.averageScore = some "100.00" ∧ r.totalPoints = 100)
    ∧ (∀ s, findStats stats u = some s →
        ∃ r, findStats (submitChallenge subs stats cid p gid now).2.2 u = some r
          ∧ r.totalSubmissions = s.totalSubmissions.map (fun n => n + 1)
          ∧ r.totalPoints = s.totalPoints + 100)
    ∧ (findStats stats u = none →
        ∀ subs2 cid2 p2 gid2 now2, p2.userId = some u →
          ∃ r, findStats (submitChallenge subs2
                (submitChallenge subs stats cid p gid now).2.2
                cid2 p2 gid2 now2).2.2 u = some r
            ∧ r.totalSubmissions = some 2 ∧ r.totalPoints = 200) := by
  have hst := submit_stats_eq subs stats cid p gid now u hu hne
  refine ⟨?_, ?_, ?_⟩
  · intro h0
    refine ⟨seedStatsRow u 100 now, ?_, rfl, rfl, rfl, rfl, rfl⟩
    rw [hst, upsert_fresh stats u 100 now h0]
  · intro s hs
    refine ⟨bumpStatsRow s 100 now, ?_, rfl, rfl⟩
    rw [hst]
    exact upsert_existing stats u 100 now s hs
  · intro h0 subs2 cid2 p2 gid2 now2 hu2
    have hst2 := submit_stats_eq subs2
      ((submitChallenge subs stats cid p gid now).2.2) cid2 p2 gid2 now2 u hu2 hne
    rw [hst2, hst, upsert_fresh stats u 100 now h0]
    have hfind : findStats (stats ++ [seedStatsRow u 100 now]) u
        = some (seedStatsRow u 100 now) := by
      rw [findStats_append_right stats _ u h0]
      show List.find? _ [seedStatsRow u 100 now] = _
      rw [List.find?_cons_of_pos _ (by simp [seedStatsRow])]
    refine ⟨bumpStatsRow (seedStatsRow u 100 now) 100 now2, ?_, rfl, rfl⟩
    exact upsert_existing _ u 100 now2 _ hfind

/-- C1 witness: submitting twice for user u1 starting from an empty stats
table leaves totalSubmissions 2 and totalPoints 200. -/
theorem submit_upsert_additive_witness :
    ∃ r, findStats (submitChallenge []
          (submitChallenge [] [] "c" samplePayload "g" 5).2.2
          "c" samplePayload "g" 6).2.2 "u1" = some r
      ∧ r.totalSubmissions = some 2 ∧ r.totalPoints = 200 :=
  (submit_upsert_additive [] [] "c" samplePayload "g" 5 "u1" rfl
    (by decide)).2.2 rfl [] "c" samplePayload "g" 6 rfl

/-- C2: on a submission by a known user whose stats row exists, the conflict
branch leaves averageScore, totalChallenges, currentStreak, longestStreak,
lastSubmissionDate (and every other column except totalSubmissions,
totalPoints and the update timestamp) unchanged. -/
theorem submit_conflict_frame (subs : List ChallengeSubmission)
    (stats : List UserPracticeStats) (cid : String) (p : SubmitPayload)
    (gid : String) (now : Nat) (u : String) (s : UserPracticeStats)
    (hu : p.userId = some u) (hne : u ≠ "") (hs : findStats stats u = some s) :
    ∃ r, findStats (submitChallenge subs stats cid p gid now).2.2 u = some r
      ∧ r.userId = s.userId
      ∧ r.totalChallenges = s.totalChallenges
      ∧ r.averageScore = s.averageScore
      ∧ r.bestRank = s.bestRank
      ∧ r.languagesPracticed = s.languagesPracticed
      ∧ r.difficultyBreakdown = s.difficultyBreakdown
      ∧ r.rankDistribution = s.rankDistribution
      ∧ r.currentStreak = s.currentStreak
      ∧ r.longestStreak = s.longestStreak
      ∧ r.lastSubmissionDate = s.lastSubmissionDate
      ∧ r.totalSubmissions = s.totalSubmissions.map (fun n => n + 1)
      ∧ r.totalPoints = s.totalPoints + 100
      ∧ r.updatedAt = now := by
  have hst := submit_stats_eq subs stats cid p gid now u hu hne
  refine ⟨bumpStatsRow s 100 now, ?_, rfl, rfl, rfl, rfl, rfl, rfl, rfl, rfl,
    rfl, rfl, rfl, rfl, rfl⟩
  rw [hst]
  exact upsert_existing stats u 100 now s hs

/-- C2 witness: a concrete pre-existing row keeps its averageScore,
totalChallenges and streaks through a submission. -/
theorem submit_conflict_frame_witness :
    ∃ r, findStats (submitChallenge [] [sampleStatsRow] "c" samplePayload "g" 5).2.2
        "u1" = some r
      ∧ r.averageScore = sampleStatsRow.averageScore
      ∧ r.totalChallenges = sampleStatsRow.totalChallenges
      ∧ r.currentStreak = sampleStatsRow.currentStreak
      ∧ r.longestStreak = sampleStatsRow.longestStreak
      ∧ r.lastSubmissionDate = sampleStatsRow.lastSubmissionDate := by
  obtain ⟨r, h1, -, htc, havg, -, -, -, -, hcs, hls, hlsd, -⟩ :=
    submit_conflict_frame [] [sampleStatsRow] "c" samplePayload "g" 5 "u1"
      sampleStatsRow rfl (by decide) rfl
  exact ⟨r, h1, havg, htc, hcs, hls, hlsd⟩

/-- The columns the PATCH handler may never touch: everything except content,
title, description, language and the update timestamp. -/
def patchFrameOK (a b : CodeSnippet) : Prop :=
  a.id = b.id ∧ a.shareToken = b.shareToken ∧ a.ownerId = b.ownerId
    ∧ a.isProtected = b.isProtected ∧ a.isPublic = b.isPublic
    ∧ a.isFeatured = b.isFeatured ∧ a.isTemporary = b.isTemporary
    ∧ a.expiresAt = b.expiresAt ∧ a.createdAt = b.createdAt

/-- C3: a PATCH on a share token leaves every column other than content,
title, description, language and the update timestamp unchanged on every row
(rows with a different token are untouched entirely), answers 404 leaving the
table unchanged when no row carries the token, and answers 200 when one
does. -/
theorem patchSnippet_spec (snippets : List CodeSnippet) (token : String)
    (b : PatchBody) (now : Nat) :
    List.Forall₂ (fun s s' => patchFrameOK s s' ∧ (s.shareToken ≠ token → s' = s))
      snippets (patchSnippet snippets token b now).2.2
    ∧ ((∀ s ∈ snippets, s.shareToken ≠ token) →
        patchSnippet snippets token b now = (404, none, snippets))
    ∧ (∀ s ∈ snippets, s.shareToken = token →
        (patchSnippet snippets token b now).1 = 200) := by
  have hframe : ∀ s : CodeSnippet, patchFrameOK s (applyPatch s b now) := by
    intro s
    exact ⟨rfl, rfl, rfl, rfl, rfl, rfl, rfl, rfl, rfl⟩
  refine ⟨?_, ?_, ?_⟩
  · unfold patchSnippet
    split
    · rw [List.forall₂_map_right_iff, List.forall₂_same]
      intro s _
      by_cases h : s.shareToken = token
      · rw [if_pos (by simp [h])]
        exact ⟨hframe s, fun hc => absurd h hc⟩
      · rw [if_neg (by simp [h])]
        exact ⟨⟨rfl, rfl, rfl, rfl, rfl, rfl, rfl, rfl, rfl⟩, fun _ => rfl⟩
    · rw [List.forall₂_same]
      intro s _
      exact ⟨⟨rfl, rfl, rfl, rfl, rfl, rfl, rfl, rfl, rfl⟩, fun _ => rfl⟩
  · intro hall
    unfold patchSnippet
    split
    · next s' hh =>
      exfalso
      have hnil : snippets.filter (fun s => s.shareToken == token) = [] :=
        List.filter_eq_nil_iff.mpr (fun a ha => by simp [hall a ha])
      rw [hnil] at hh
      simp at hh
    · rfl
  · intro s hs ht
    unfold patchSnippet
    split
    · rfl
    · next hh =>
      exfalso
      have hmem : applyPatch s b now ∈
          (snippets.filter (fun x => x.shareToken == token)).map
            (fun x => applyPatch x b now) :=
        List.mem_map_of_mem _ (List.mem_filter.mpr ⟨hs, by simp [ht]⟩)
      rw [List.head?_eq_none_iff] at hh
      rw [hh] at hmem
      cases hmem

/-- C3 witness: patching a token nobody holds answers 404 and leaves the
store unchanged; patching the stored token answers 200. -/
theorem patchSnippet_spec_witness :
    patchSnippet [sampleSnippet] "zzz" samplePatchBody 9 = (404, none, [sampleSnippet])
    ∧ (patchSnippet [sampleSnippet] "tok" samplePatchBody 9).1 = 200 :=
  ⟨(patchSnippet_spec [sampleSnippet] "zzz" samplePatchBody 9).2.1
     (by simp [sampleSnippet]),
   (patchSnippet_spec [sampleSnippet] "tok" samplePatchBody 9).2.2 sampleSnippet
     (by simp) rfl⟩

theorem nanoid_length (size : Nat) (rand : Nat → Nat) :
    (nanoid size rand).length = size := by
  simp [nanoid, String.length]

/-- C4: a valid creation payload is stored and returned with the
server-generated 12-character share token; the caller-supplied shareToken, id
and timestamp fields are stripped and have no effect on the result; an invalid
payload answers 400 and stores nothing. -/
theorem createSnippet_spec (snippets : List CodeSnippet) (p : SnippetPayload)
    (genId : String) (rand : Nat → Nat) (now : Nat) :
    (∀ d, parseInsertCodeSnippet p = .ok d →
      ∃ row, createSnippet snippets p genId rand now = (200, some row, snippets ++ [row])
        ∧ row.shareToken = nanoid 12 rand ∧ row.shareToken.length = 12)
    ∧ (∀ xi xs xc xu,
        createSnippet snippets
          { p with id := xi, shareToken := xs, createdAt := xc, updatedAt := xu }
          genId rand now
        = createSnippet snippets p genId rand now)
    ∧ (∀ e, parseInsertCodeSnippet p = .error e →
        createSnippet snippets p genId rand now = (400, none, snippets)) := by
  refine ⟨?_, ?_, ?_⟩
  · intro d hd
    refine ⟨mkSnippetRow d genId rand now, ?_, rfl, nanoid_length 12 rand⟩
    unfold createSnippet
    rw [hd]
  · intro xi xs xc xu
    rfl
  · intro e he
    unfold createSnippet
    rw [he]

/-- C4 witness: the well-formed sample body (which tries to smuggle in an id,
token and timestamp) is stored with the generated 12-character token, and the
ill-typed body is rejected with nothing stored. -/
theorem createSnippet_spec_witness :
    (∃ row, createSnippet [] sampleCreatePayload "gid" (fun k => k) 3
        = (200, some row, [] ++ [row])
      ∧ row.shareToken = nanoid 12 (fun k => k) ∧ row.shareToken.length = 12)
    ∧ createSnippet [] badCreatePayload "gid" (fun k => k) 3 = (400, none, []) :=
  ⟨(createSnippet_spec [] sampleCreatePayload "gid" (fun k => k) 3).1
     sampleParsedSnippet rfl,
   (createSnippet_spec [] badCreatePayload "gid" (fun k => k) 3).2.2
     "Expected string" rfl⟩

/-- The ordering the message-listing claim asserts: strictly descending
creation time between every pair of returned rows. -/
def strictlyNewestFirst (l : List SnippetMessage) : Prop :=
  l.Pairwise (fun a b => msgKey b < msgKey a)

/-- Two stored messages of the same snippet sharing a creation instant. -/
def msgA : SnippetMessage :=
  { id := "a", snippetId := "s", userId := none, username := "u",
    messageType := "text", content := some "hi", fileUrl := none,
    fileName := none, fileSize := none, fileType := none,
    createdAt := some 5, updatedAt := none }

/-- Same creation instant as msgA, different id. -/
def msgB : SnippetMessage := { msgA with id := "b" }

/-- C6 counterexample: with two messages of the snippet created at the same
instant, the listing is not sorted by strictly descending creation time, so
the claim as stated fails at this input. -/
theorem listSnippetMessages_not_strict :
    ¬ strictlyNewestFirst (listSnippetMessages [msgA, msgB] "s") := by
  unfold strictlyNewestFirst
  decide

/-- C6 (amended): the listing returns at most 100 rows, each belonging to the
snippet, sorted by non-increasing (weakly descending) creation time, and every
matching stored row left out is no newer than any returned row. -/
theorem listSnippetMessages_spec (msgs : List SnippetMessage) (sid : String) :
    (listSnippetMessages msgs sid).length ≤ 100
    ∧ (∀ m ∈ listSnippetMessages msgs sid, m.snippetId = sid)
    ∧ (listSnippetMessages msgs sid).Pairwise (fun a b => msgKey b ≤ msgKey a)
    ∧ (∀ y ∈ msgs, y.snippetId = sid → y ∉ listSnippetMessages msgs sid →
        ∀ x ∈ listSnippetMessages msgs sid, msgKey y ≤ msgKey x) := by
  refine ⟨List.length_take_le _ _, ?_, ?_, ?_⟩
  · intro m hm
    have hm' := List.take_subset _ _ hm
    rw [List.mem_insertionSort] at hm'
    have := (List.mem_filter.mp hm').2
    simpa using this
  · exact List.Pairwise.sublist (List.take_sublist _ _)
      (List.sorted_insertionSort msgDesc _)
  · intro y hy hysid hynot x hx
    have hsorted := List.sorted_insertionSort msgDesc
      (msgs.filter (fun m => m.snippetId == sid))
    have hymem : y ∈ List.insertionSort msgDesc
        (msgs.filter (fun m => m.snippetId == sid)) := by
      rw [List.mem_insertionSort]
      exact List.mem_filter.mpr ⟨hy, by simp [hysid]⟩
    rw [← List.take_append_drop 100
      (List.insertionSort msgDesc (msgs.filter (fun m => m.snippetId == sid)))]
      at hymem
    have hydrop : y ∈ (List.insertionSort msgDesc
        (msgs.filter (fun m => m.snippetId == sid))).drop 100 := by
      rcases List.mem_append.mp hymem with h | h
      · exact absurd h hynot
      · exact h
    have hpw := hsorted
    rw [← List.take_append_drop 100
      (List.insertionSort msgDesc (msgs.filter (fun m => m.snippetId == sid)))]
      at hpw
    exact (List.pairwise_append.mp hpw).2.2 x hx y hydrop

/-- C6 witness: on a concrete store the listing is short and its rows belong
to the snippet. -/
theorem listSnippetMessages_spec_witness :
    (listSnippetMessages [msgA, msgB] "s").length ≤ 100
    ∧ msgA.snippetId = "s" :=
  ⟨(listSnippetMessages_spec [msgA, msgB] "s").1,
   (listSnippetMessages_spec [msgA, msgB] "s").2.1 msgA (by decide)⟩

/-- A stored challenge with difficulty easy and language python. -/
def chEasyPy : CodingChallenge :=
  { id := "c1", title := "t", description := "d", difficulty := "easy",
    language := "python", testCases := [], hints := [], constraints := none,
    createdAt := 1, createdBy := none }

/-- C7 counterexample: with both filters supplied but difficulty equal to the
empty string, the handler treats the filter as absent (JS truthiness), so a
row whose difficulty does not match the supplied filter is returned: the
claim as stated fails at this input. -/
theorem listChallenges_empty_filter_cex :
    ¬ (∀ c ∈ listChallenges [chEasyPy] (some "") (some "python"),
        c.difficulty = "" ∧ c.language = "python") := by
  decide

/-- C7 (amended): when both filters are supplied and nonempty every returned
row matches both (AND-combined equality); a supplied empty-string filter, like
an absent one, is not applied (with neither filter the result is just the
newest-first 50-row truncation of the table); the result is ordered by
non-increasing creation time and has at most 50 rows. -/
theorem listChallenges_spec (cs : List CodingChallenge)
    (difficulty language : Option String) :
    (listChallenges cs difficulty language).length ≤ 50
    ∧ (listChallenges cs difficulty language).Pairwise
        (fun a b => b.createdAt ≤ a.createdAt)
    ∧ (∀ d l, d ≠ "" → l ≠ "" →
        ∀ c ∈ listChallenges cs (some d) (some l),
          c.difficulty = d ∧ c.language = l)
    ∧ listChallenges cs none none = (List.insertionSort chDesc cs).take 50 := by
  refine ⟨List.length_take_le _ _, ?_, ?_, ?_⟩
  · exact List.Pairwise.sublist (List.take_sublist _ _)
      (List.sorted_insertionSort chDesc _)
  · intro d l hd hl c hc
    have hc' := List.take_subset _ _ hc
    rw [List.mem_insertionSort] at hc'
    have hpred := (List.mem_filter.mp hc').2
    have hdf : (d == "") = false := by simpa using hd
    have hlf : (l == "") = false := by simpa using hl
    rw [listChallenges] at hc
    simp only [hdf, hlf] at hpred ⊢
    revert hpred
    simp [List.all_cons]
  · show (List.insertionSort chDesc (cs.filter _)).take 50 = _
    rw [List.filter_eq_self.mpr (fun a _ => by simp [List.all_nil])]

/-- C7 witness: with both filters supplied and nonempty, the returned row
matches both. -/
theorem listChallenges_spec_witness :
    chEasyPy.difficulty = "easy" ∧ chEasyPy.language = "python" :=
  (listChallenges_spec [chEasyPy] (some "easy") (some "python")).2.2.1
    "easy" "python" (by decide) (by decide) chEasyPy (by decide)

/-- C9: for every POST to /api/code/format, the returned formattedCode equals
the code field of the request body exactly, and the handler answers 200: the
formatting stub is the identity on its input. -/
theorem format_echoes_code (b : FormatBody) :
    (formatCodeHandler b).2.formattedCode = b.code ∧ (formatCodeHandler b).1 = 200 :=
  ⟨rfl, rfl⟩

/-- C5: a GET of /api/snippets/:shareToken answers 200 or 404 and nothing
else; it answers 404 exactly when no stored snippet carries the token; any
returned row is a stored row carrying the token; and when the stored tokens
are pairwise distinct (the schema makes the column unique), the row carrying
the token is the row returned. -/
theorem getSnippet_spec (snippets : List CodeSnippet) (token : String) :
    ((getSnippet snippets token).1 = 200 ∨ (getSnippet snippets token).1 = 404)
    ∧ ((getSnippet snippets token).1 = 404 ↔ ∀ s ∈ snippets, s.shareToken ≠ token)
    ∧ (∀ s, (getSnippet snippets token).2 = some s → s ∈ snippets ∧ s.shareToken = token)
    ∧ (snippets.Pairwise (fun a b => a.shareToken ≠ b.shareToken) →
        ∀ s ∈ snippets, s.shareToken = token → getSnippet snippets token = (200, some s)) := by
  refine ⟨?_, ?_, ?_, ?_⟩
  · unfold getSnippet
    cases h : snippets.find? (fun s => s.shareToken == token) <;> simp
  · unfold getSnippet
    cases h : snippets.find? (fun s => s.shareToken == token) with
    | none =>
      simp only []
      constructor
      · intro _ s hs htok
        have := List.find?_eq_none.mp h s hs
        simp only [beq_iff_eq] at this
        exact this htok
      · intro _; trivial
    | some s =>
      simp only []
      constructor
      · intro hc; cases hc
      · intro hall
        have hmem := List.mem_of_find?_eq_some h
        have hp := List.find?_some h
        simp only [beq_iff_eq] at hp
        exact absurd hp (hall s hmem)
  · intro s hs
    unfold getSnippet at hs
    cases h : snippets.find? (fun x => x.shareToken == token) with
    | none => rw [h] at hs; cases hs
    | some x =>
      rw [h] at hs
      cases hs
      have hp := List.find?_some h
      simp only [beq_iff_eq] at hp
      exact ⟨List.mem_of_find?_eq_some h, hp⟩
  · intro hpw s hs htok
    unfold getSnippet
    have : snippets.find? (fun x => x.shareToken == token) = some s := by
      induction snippets with
      | nil => cases hs
      | cons a l ih =>
        rcases List.mem_cons.mp hs with rfl | hmem
        · exact List.find?_cons_of_pos _ (by simp [htok])
        · have hne : a.shareToken ≠ token := by
            have := (List.pairwise_cons.mp hpw).1 s hmem
            rw [htok] at this; exact this
          rw [List.find?_cons_of_neg _ (by simp [hne])]
          exact ih (List.pairwise_cons.mp hpw).2 hmem
    rw [this]

/-- C5 witness: a missing token yields 404 on the empty store, and the row
carrying the token is returned on a one-row store. -/
theorem getSnippet_spec_witness :
    (getSnippet [] "t").1 = 404
    ∧ getSnippet [sampleSnippet] "tok" = (200, some sampleSnippet) :=
  ⟨((getSnippet_spec [] "t").2.1).mpr (by simp),
   (getSnippet_spec [sampleSnippet] "tok").2.2.2 (by simp) sampleSnippet
     (by simp) rfl⟩

/-- C8: GET /api/users/:userId/stats always answers 200 (never 404), never
writes, answers the zero-valued literal echoing the requested user id when no
row exists, and answers the stored row itself when one exists. -/
theorem getUserStats_spec (stats : List UserPracticeStats) (uid : String) :
    (getUserStats stats uid).1 = 200
    ∧ (getUserStats stats uid).2.2 = stats
    ∧ (findStats stats uid = none →
        (getUserStats stats uid).2.1 =
          .zero { userId := uid, totalChallenges := 0, totalSubmissions := 0,
                  averageScore := "0.00", totalPoints := 0, currentStreak := 0,
                  longestStreak := 0 })
    ∧ (∀ s, findStats stats uid = some s → (getUserStats stats uid).2.1 = .row s) := by
  unfold getUserStats findStats
  cases h : stats.find? (fun s => s.userId == uid) <;> simp [h]

/-- C8 witness: on an empty store the zero object comes back with the id
echoed, and with a stored row the row itself comes back. -/
theorem getUserStats_spec_witness :
    (getUserStats [] "u9").1 = 200
    ∧ (getUserStats [] "u9").2.1 =
        .zero { userId := "u9", totalChallenges := 0, totalSubmissions := 0,
                averageScore := "0.00", totalPoints := 0, currentStreak := 0,
                longestStreak := 0 }
    ∧ (getUserStats [sampleStatsRow] "u1").2.1 = .row sampleStatsRow :=
  ⟨(getUserStats_spec [] "u9").1,
   (getUserStats_spec [] "u9").2.2.1 rfl,
   (getUserStats_spec [sampleStatsRow] "u1").2.2.2 sampleStatsRow rfl⟩

/-- C10: POST /api/coding-challenges/generate answers 500 and stores nothing
when the body lacks a difficulty string (the title template throws first);
when difficulty and language are present the stored row's title is the
capitalized difficulty, the language and the word Challenge. -/
theorem generateChallenge_spec (cs : List CodingChallenge)
    (difficulty language : Option String) (genId : String) (now : Nat) :
    (difficulty = none → generateChallenge cs difficulty language genId now = (500, cs))
    ∧ (∀ d l, difficulty = some d → language = some l →
        ∃ ch, generateChallenge cs difficulty language genId now = (200, cs ++ [ch])
          ∧ ch.title = jsCapitalize d ++ " " ++ l ++ " Challenge") := by
  constructor
  · rintro rfl; rfl
  · rintro d l rfl rfl
    exact ⟨_, rfl, rfl⟩

/-- C10 witness: a body without difficulty answers 500 and leaves the table
empty; a full body stores a row whose title follows the template. -/
theorem generateChallenge_spec_witness :
    generateChallenge [] none (some "python") "g" 3 = (500, [])
    ∧ ∃ ch, generateChallenge [] (some "easy") (some "python") "g" 3 = (200, [] ++ [ch])
        ∧ ch.title = jsCapitalize "easy" ++ " " ++ "python" ++ " Challenge" :=
  ⟨(generateChallenge_spec [] none (some "python") "g" 3).1 rfl,
   (generateChallenge_spec [] (some "easy") (some "python") "g" 3).2 "easy" "python" rfl rfl⟩

end Coderfile
